import Mathlib

/-!
Shallow embedding of `SageMind.py`, a Telegram mental-health chatbot.

The session store is three process-wide dictionaries (`response_history`,
`mood_log`, `journal_log`); two `ConversationHandler`s drive the mood and
journal flows; free text falls through to a sentiment-classifying chat
handler.  Handlers are dispatched in registration order, first match wins,
mirroring the python-telegram-bot group-0 semantics of
`Application.process_update`.

External collaborators (the DistilBERT classifier, `random.choice`, the
wall clock) are modelled as an `Oracle` record supplied per inbound event:
`argmax` is the index `torch.argmax(outputs.logits).item()` over the two
SST-2 logits, `classifierFails` says whether the model call raises, the
`rand*` fields are the indices drawn by `random.choice`, and `now` is the
wall-clock reading formatted by `strftime`.
-/

namespace SageMind

/-- Wall-clock reading; `datetime.now()` restricted to the fields used by
the format string `"%Y-%m-%d %H:%M:%S"`. -/
structure DateTimeParts where
  year : Nat
  month : Nat
  day : Nat
  hour : Nat
  minute : Nat
  second : Nat
deriving DecidableEq, Repr

/-- Zero-padding of `strftime` two-digit fields (`%m %d %H %M %S`). -/
def pad2 (n : Nat) : String :=
  if n < 10 then "0" ++ toString n else toString n

/-- Zero-padding of the `strftime` year field `%Y`. -/
def pad4 (n : Nat) : String :=
  if n < 10 then "000" ++ toString n
  else if n < 100 then "00" ++ toString n
  else if n < 1000 then "0" ++ toString n
  else toString n

/-- `datetime.now().strftime("%Y-%m-%d %H:%M:%S")`. -/
def strftimeTimestamp (t : DateTimeParts) : String :=
  pad4 t.year ++ "-" ++ pad2 t.month ++ "-" ++ pad2 t.day ++ " " ++
    pad2 t.hour ++ ":" ++ pad2 t.minute ++ ":" ++ pad2 t.second

/-- An inbound Telegram update restricted to what the handlers read:
the chat id, the message text, and the bot-command entity at offset 0
(with its token) when the platform marked the message as a command. -/
structure Msg where
  chat_id : Nat
  text : String
  cmd : Option String
deriving DecidableEq, Repr

/-- `mood_log[user_id]`: `{"mood": ..., "timestamp": ...}`. -/
structure MoodEntry where
  mood : String
  timestamp : String
deriving DecidableEq, Repr

/-- One element of `journal_log[user_id]`: `{"entry": ..., "timestamp": ...}`. -/
structure JournalEntry where
  entry : String
  timestamp : String
deriving DecidableEq, Repr

/-- The process-wide session store plus the two `ConversationHandler`
per-chat states: `moodAwaiting u` holds while the mood conversation for
chat `u` is in state `MOOD`, `journalAwaiting u` likewise for `JOURNAL`.
Dictionaries are total lookup functions; `response_history` only ever has
its keys tested, so it is kept as its membership predicate. -/
structure BotState where
  response_history : Nat → Bool
  mood_log : Nat → Option MoodEntry
  journal_log : Nat → Option (List JournalEntry)
  moodAwaiting : Nat → Bool
  journalAwaiting : Nat → Bool

/-- The module-level store at import time: all three dicts empty, no
conversation active. -/
def initState : BotState where
  response_history := fun _ => false
  mood_log := fun _ => none
  journal_log := fun _ => none
  moodAwaiting := fun _ => false
  journalAwaiting := fun _ => false

/-- The external collaborators consulted while handling one update. -/
structure Oracle where
  argmax : String → Fin 2
  classifierFails : String → Bool
  randPos : Fin 5
  randNeg : Fin 5
  randAff : Fin 10
  now : DateTimeParts

/-- `sentiment_labels = ['negative', 'positive']`. -/
def sentiment_labels : List String := ["negative", "positive"]

/-- `affirmations`. -/
def affirmations : List String :=
  [ "You are stronger than you think. 🌟",
    "Your feelings are valid and important. 💖",
    "Every day is a step forward, no matter how small. 🌱",
    "Take a deep breath. You’ve got this. 🌟",
    "You are enough just as you are. 🌸",
    "Believe in yourself – you have so much potential! 💫",
    "Your journey is unique, and you’re doing amazing. ✨",
    "You are worthy of all the good things coming your way. 🌷",
    "Don’t forget to take care of yourself. You matter. 💙",
    "You’ve faced challenges before, and you can overcome this too. 💪" ]

/-- `positive_responses` (local list in `generate_response`). -/
def positive_responses : List String :=
  [ "I\x27m so happy you\x27re feeling good! Keep up the great work! 😊",
    "That\x27s fantastic! You\x27re doing an amazing job. 🎉",
    "It\x27s great to hear that! You\x27re on the right track. 💪",
    "Wow! Keep riding this positive energy. You\x27re unstoppable! ✨",
    "I\x27m really glad you\x27re feeling so great! Keep shining! 🌟" ]

/-- `negative_responses` (local list in `generate_response`). -/
def negative_responses : List String :=
  [ "I\x27m really sorry you\x27re feeling this way. Let\x27s talk it through. 💖",
    "It\x27s okay to feel down sometimes. I\x27m here for you. 💬",
    "I\x27m sorry you\x27re going through this. You’re not alone. 🤝",
    "I hear you, and I understand how tough things can get. Let\x27s work through it together. 🌱",
    "It’s okay to not feel okay sometimes. I’m here to listen. 💙" ]

/-- `classify_sentiment(text)`: runs the model (which may raise) and
indexes `sentiment_labels` with the argmax of the two logits. -/
def classify_sentiment (o : Oracle) (text : String) : Except Unit String :=
  if o.classifierFails text then Except.error ()
  else Except.ok (sentiment_labels.get ⟨(o.argmax text).val, (o.argmax text).isLt⟩)

/-- `generate_response(user_input)`: classify, then `random.choice` from
the pool for the label; an exception from the classifier propagates. -/
def generate_response (o : Oracle) (user_input : String) : Except Unit String :=
  match classify_sentiment o user_input with
  | Except.error e => Except.error e
  | Except.ok sentiment =>
    if sentiment = "positive" then
      Except.ok (positive_responses.get ⟨o.randPos.val, o.randPos.isLt⟩)
    else
      Except.ok (negative_responses.get ⟨o.randNeg.val, o.randNeg.isLt⟩)

/-- `start(update, context)`. -/
def start (s : BotState) (_m : Msg) : BotState × List String :=
  (s,
   [ "Hi there! 😊 I\x27m your mental health chatbot.\n" ++
     "I can help with mood tracking, journaling, affirmations, and conversations.\n" ++
     "Here’s what I can do:\n" ++
     "/start - Start a conversation\n" ++
     "/help - List available commands\n" ++
     "/mood - Track your mood\n" ++
     "/journal - Write a private journal entry\n" ++
     "/affirmation - Receive a positive affirmation\n" ++
     "You can also chat with me!" ])

/-- `help_command(update, context)`. -/
def help_command (s : BotState) (_m : Msg) : BotState × List String :=
  (s,
   [ "Here are the things you can do:\n" ++
     "/start - Start a conversation\n" ++
     "/help - List this message\n" ++
     "/mood - Track your mood\n" ++
     "/journal - Write a journal entry\n" ++
     "/affirmation - Receive a positive affirmation\n" ++
     "You can also chat with me about your feelings!" ])

/-- `mood(update, context)`: prompt, then `return MOOD` puts this chat's
mood conversation into the `MOOD` state. -/
def mood (s : BotState) (m : Msg) : BotState × List String :=
  ({ s with moodAwaiting := fun k => if k = m.chat_id then true else s.moodAwaiting k },
   ["How are you feeling today? (e.g., Happy, Sad, Anxious)"])

/-- `log_mood(update, context)`: overwrite `mood_log[user_id]`, echo the
text, and `return ConversationHandler.END` ends the mood conversation. -/
def log_mood (o : Oracle) (s : BotState) (m : Msg) : BotState × List String :=
  let timestamp := strftimeTimestamp o.now
  ({ s with
      mood_log := fun k =>
        if k = m.chat_id then some { mood := m.text, timestamp := timestamp }
        else s.mood_log k,
      moodAwaiting := fun k => if k = m.chat_id then false else s.moodAwaiting k },
   ["Thank you for sharing! I\x27ve logged your mood as \x27" ++ m.text ++ "\x27."])

/-- `journal(update, context)`: prompt, then `return JOURNAL`. -/
def journal (s : BotState) (m : Msg) : BotState × List String :=
  ({ s with journalAwaiting := fun k => if k = m.chat_id then true else s.journalAwaiting k },
   ["Write your thoughts below. I\x27ll keep them private."])

/-- `save_journal(update, context)`: initialize `journal_log[user_id]` to
`[]` when the key is missing, append the entry, end the conversation. -/
def save_journal (o : Oracle) (s : BotState) (m : Msg) : BotState × List String :=
  let timestamp := strftimeTimestamp o.now
  let prev := (s.journal_log m.chat_id).getD []
  ({ s with
      journal_log := fun k =>
        if k = m.chat_id then some (prev ++ [{ entry := m.text, timestamp := timestamp }])
        else s.journal_log k,
      journalAwaiting := fun k => if k = m.chat_id then false else s.journalAwaiting k },
   ["Thank you for sharing. I\x27ve saved your journal entry."])

/-- `affirmation(update, context)`: `random.choice(affirmations)`. -/
def affirmation (o : Oracle) (s : BotState) (_m : Msg) : BotState × List String :=
  (s, [affirmations.get ⟨o.randAff.val, o.randAff.isLt⟩])

/-- `chat(update, context)`: try `generate_response`; any exception is
caught and replaced by the fixed fallback reply. -/
def chat (o : Oracle) (s : BotState) (m : Msg) : BotState × List String :=
  let bot_reply :=
    match generate_response o m.text with
    | Except.ok r => r
    | Except.error _ => "I\x27m here to listen. Please share more about how you\x27re feeling."
  (s, [bot_reply])

/-- `end_chat(update, context)`: delete the chat id from
`response_history` when present, then acknowledge. -/
def end_chat (s : BotState) (m : Msg) : BotState × List String :=
  (if s.response_history m.chat_id then
     { s with response_history := fun k => if k = m.chat_id then false else s.response_history k }
   else s,
   ["Thank you for sharing. Your session data has been cleared."])

/-- `filters.TEXT & ~filters.COMMAND`: `filters.TEXT` requires non-empty
message text, `~filters.COMMAND` excludes messages carrying a bot-command
entity at offset 0. -/
def textNoCommand (m : Msg) : Bool :=
  m.text != "" && m.cmd == none

/-- One registered handler: the `check_update` predicate and the callback
(together with the `ConversationHandler` bookkeeping its return value
causes). -/
structure Handler where
  check : BotState → Msg → Bool
  run : Oracle → BotState → Msg → BotState × List String

/-- The handler list built in `main()`, in registration order: four
`CommandHandler`s, the mood `ConversationHandler` (entry `/mood`, state
`MOOD` handled by `log_mood` on non-command text, no fallbacks), the
journal `ConversationHandler` likewise, then the free-text chat
`MessageHandler`. -/
def handlers : List Handler :=
  [ { check := fun _ m => m.cmd == some "start",
      run := fun _ s m => start s m },
    { check := fun _ m => m.cmd == some "help",
      run := fun _ s m => help_command s m },
    { check := fun _ m => m.cmd == some "affirmation",
      run := fun o s m => affirmation o s m },
    { check := fun _ m => m.cmd == some "end",
      run := fun _ s m => end_chat s m },
    { check := fun s m =>
        if s.moodAwaiting m.chat_id then textNoCommand m else m.cmd == some "mood",
      run := fun o s m =>
        if s.moodAwaiting m.chat_id then log_mood o s m else mood s m },
    { check := fun s m =>
        if s.journalAwaiting m.chat_id then textNoCommand m else m.cmd == some "journal",
      run := fun o s m =>
        if s.journalAwaiting m.chat_id then save_journal o s m else journal s m },
    { check := fun _ m => textNoCommand m,
      run := fun o s m => chat o s m } ]

/-- Group-0 dispatch: the first handler whose check accepts the update
runs; when none accepts, the update is dropped with no reply. -/
def dispatch : List Handler → Oracle → BotState → Msg → BotState × List String
  | [], _, s, _ => (s, [])
  | h :: hs, o, s, m => if h.check s m then h.run o s m else dispatch hs o s m

/-- `Application.process_update` over the handlers registered in `main()`. -/
def process_update (o : Oracle) (s : BotState) (m : Msg) : BotState × List String :=
  dispatch handlers o s m

/-- States reachable from the import-time store by processing inbound
updates. -/
inductive Reachable : BotState → Prop where
  | init : Reachable initState
  | step (o : Oracle) (m : Msg) {s : BotState} :
      Reachable s → Reachable (process_update o s m).1

/-- Outcome of `main()`. -/
inductive StartupResult where
  | fatal (diagnostic : String)
  | running (handlerNames : List String)
deriving DecidableEq, Repr

/-- Python truthiness of `os.getenv` results: `None` and `""` are falsy. -/
def getenvTruthy : Option String → Bool
  | none => false
  | some s => s != ""

/-- The handlers `main()` registers, in order, when startup succeeds. -/
def registeredHandlerNames : List String :=
  ["start", "help", "affirmation", "end", "mood_conversation", "journal_conversation", "chat"]

/-- `main()`: `if not telegram_bot_token: print(...); return` before any
handler is added, else build the application and register handlers. -/
def main (telegram_bot_token : Option String) : StartupResult :=
  if getenvTruthy telegram_bot_token = false then
    StartupResult.fatal "Error: TELEGRAM_BOT_TOKEN not found in .env file."
  else
    StartupResult.running registeredHandlerNames

/-! Concrete instances used by witnesses and counterexamples. -/

/-- A concrete oracle: the model always answers label index 0 and never
raises, every random draw takes the first pool element, and the clock is
fixed. -/
def oW : Oracle where
  argmax := fun _ => 0
  classifierFails := fun _ => false
  randPos := 0
  randNeg := 0
  randAff := 0
  now := { year := 2024, month := 6, day := 1, hour := 12, minute := 30, second := 5 }

/-- A concrete oracle whose model call raises on every input. -/
def oFail : Oracle where
  argmax := fun _ => 0
  classifierFails := fun _ => true
  randPos := 0
  randNeg := 0
  randAff := 0
  now := { year := 2024, month := 6, day := 1, hour := 12, minute := 30, second := 5 }

/-- The `/mood` command update from chat 7. -/
def mMoodCmd : Msg := { chat_id := 7, text := "/mood", cmd := some "mood" }

/-- The free-text reply `"Anxious"` from chat 7. -/
def mAnxious : Msg := { chat_id := 7, text := "Anxious", cmd := none }

/-- A later plain free-text message from chat 7. -/
def mHello : Msg := { chat_id := 7, text := "hello", cmd := none }

/-- The store after chat 7 issues `/mood` from the import-time store: its
mood conversation is awaiting the mood text. -/
def moodAwaitState : BotState :=
  (process_update oW initState mMoodCmd).1

/-- A store in which chat 8 is present in `response_history`. -/
def activeFlagState : BotState :=
  { initState with response_history := fun k => k == 8 }

end SageMind

namespace SageMind

/-- C7: if the platform access token is absent from the process
environment, `main` is fatal: it reports the diagnostic and returns
before registering any handlers or serving events. -/
theorem missing_token_fatal :
    main none = StartupResult.fatal "Error: TELEGRAM_BOT_TOKEN not found in .env file." ∧
    ∀ hs, main none ≠ StartupResult.running hs := by
  refine ⟨rfl, ?_⟩
  intro hs h
  simp [main, getenvTruthy] at h

/-- C9: the end command for a ConversationId absent from
`response_history` does not fail: it leaves the whole store unchanged and
sends the same fixed acknowledgment. -/
theorem end_chat_absent_noop (s : BotState) (m : Msg)
    (h : s.response_history m.chat_id = false) :
    end_chat s m = (s, ["Thank you for sharing. Your session data has been cleared."]) := by
  simp [end_chat, h]

/-- Witness for `end_chat_absent_noop` at the import-time store. -/
theorem end_chat_absent_noop_witness :
    initState.response_history 3 = false ∧
    end_chat initState { chat_id := 3, text := "/end", cmd := some "end" } =
      (initState, ["Thank you for sharing. Your session data has been cleared."]) :=
  ⟨rfl, end_chat_absent_noop initState { chat_id := 3, text := "/end", cmd := some "end" } rfl⟩

/-- C10: saving a journal entry for a ConversationId with no journal
sequence yet first initializes the sequence, so afterwards it is exactly
the one-element list holding the new entry. -/
theorem save_journal_missing_key (o : Oracle) (s : BotState) (m : Msg)
    (h : s.journal_log m.chat_id = none) :
    (save_journal o s m).1.journal_log m.chat_id =
      some [{ entry := m.text, timestamp := strftimeTimestamp o.now }] := by
  simp [save_journal, h]

/-- Witness for `save_journal_missing_key` on a fresh store. -/
theorem save_journal_missing_key_witness :
    initState.journal_log 4 = none ∧
    (save_journal oW initState { chat_id := 4, text := "dear diary", cmd := none }).1.journal_log 4 =
      some [{ entry := "dear diary", timestamp := strftimeTimestamp oW.now }] :=
  ⟨rfl, save_journal_missing_key oW initState { chat_id := 4, text := "dear diary", cmd := none } rfl⟩

/-- C2: when the classifier raises, the chat handler catches the
exception, replies with exactly the fixed fallback string, and returns
the session store untouched. -/
theorem classifier_failure_fallback (o : Oracle) (s : BotState) (m : Msg)
    (h : o.classifierFails m.text = true) :
    chat o s m = (s, ["I\x27m here to listen. Please share more about how you\x27re feeling."]) := by
  simp [chat, generate_response, classify_sentiment, h]

/-- Witness for `classifier_failure_fallback` with an always-raising
model. -/
theorem classifier_failure_fallback_witness :
    oFail.classifierFails "hello" = true ∧
    chat oFail initState { chat_id := 9, text := "hello", cmd := none } =
      (initState, ["I\x27m here to listen. Please share more about how you\x27re feeling."]) :=
  ⟨rfl, classifier_failure_fallback oFail initState { chat_id := 9, text := "hello", cmd := none } rfl⟩

/-- C5: the end command for a ConversationId present in
`response_history` removes it from the set, sends the fixed
acknowledgment, and leaves the mood log, the journal log, and every other
ConversationId's flag unchanged. -/
theorem end_chat_clears_flag_frame (s : BotState) (m : Msg)
    (h : s.response_history m.chat_id = true) :
    (end_chat s m).1.response_history m.chat_id = false ∧
    (end_chat s m).2 = ["Thank you for sharing. Your session data has been cleared."] ∧
    (end_chat s m).1.mood_log = s.mood_log ∧
    (end_chat s m).1.journal_log = s.journal_log ∧
    (∀ k, k ≠ m.chat_id → (end_chat s m).1.response_history k = s.response_history k) := by
  refine ⟨?_, rfl, ?_, ?_, ?_⟩
  · simp [end_chat, h]
  · simp [end_chat, h]
  · simp [end_chat, h]
  · intro k hk
    simp [end_chat, h, hk]

/-- Witness for `end_chat_clears_flag_frame` at a store where chat 8 has
the active flag. -/
theorem end_chat_clears_flag_frame_witness :
    activeFlagState.response_history 8 = true ∧
    (end_chat activeFlagState { chat_id := 8, text := "/end", cmd := some "end" }).1.response_history 8 = false ∧
    (end_chat activeFlagState { chat_id := 8, text := "/end", cmd := some "end" }).1.mood_log 8 =
      activeFlagState.mood_log 8 ∧
    (end_chat activeFlagState { chat_id := 8, text := "/end", cmd := some "end" }).1.response_history 2 =
      activeFlagState.response_history 2 :=
  ⟨rfl,
   (end_chat_clears_flag_frame activeFlagState { chat_id := 8, text := "/end", cmd := some "end" } rfl).1,
   congrFun (end_chat_clears_flag_frame activeFlagState { chat_id := 8, text := "/end", cmd := some "end" } rfl).2.2.1 8,
   (end_chat_clears_flag_frame activeFlagState { chat_id := 8, text := "/end", cmd := some "end" } rfl).2.2.2.2 2
     (by decide)⟩

/-- The label read off the two SST-2 logits is `negative` for argmax 0
and `positive` for argmax 1. -/
theorem sentiment_labels_get (i : Fin 2) :
    sentiment_labels.get ⟨i.val, i.isLt⟩ =
      if i.val = 0 then "negative" else "positive" := by
  fin_cases i <;> rfl

/-- Every reference reply in either pool is non-empty. -/
theorem pools_ne_empty :
    (∀ x ∈ positive_responses, x ≠ "") ∧ (∀ x ∈ negative_responses, x ≠ "") := by
  constructor <;> decide

/-- C3: two mood reports in sequence for one ConversationId retain only
the second value (overwrite), while two journal entries in sequence both
persist, in arrival order (append). -/
theorem mood_overwrite_journal_append (o1 o2 : Oracle) (s : BotState) (m1 m2 : Msg)
    (h : m1.chat_id = m2.chat_id) :
    (log_mood o2 (log_mood o1 s m1).1 m2).1.mood_log m2.chat_id =
      some { mood := m2.text, timestamp := strftimeTimestamp o2.now } ∧
    (save_journal o2 (save_journal o1 s m1).1 m2).1.journal_log m2.chat_id =
      some ((s.journal_log m2.chat_id).getD [] ++
        [{ entry := m1.text, timestamp := strftimeTimestamp o1.now },
         { entry := m2.text, timestamp := strftimeTimestamp o2.now }]) := by
  constructor
  · simp [log_mood]
  · simp [save_journal, h]

/-- Witness for `mood_overwrite_journal_append`: chat 5 reports twice. -/
theorem mood_overwrite_journal_append_witness :
    (log_mood oW (log_mood oFail initState { chat_id := 5, text := "sad", cmd := none }).1
        { chat_id := 5, text := "glad", cmd := none }).1.mood_log 5 =
      some { mood := "glad", timestamp := strftimeTimestamp oW.now } ∧
    (save_journal oW (save_journal oFail initState { chat_id := 5, text := "sad", cmd := none }).1
        { chat_id := 5, text := "glad", cmd := none }).1.journal_log 5 =
      some ((initState.journal_log 5).getD [] ++
        [{ entry := "sad", timestamp := strftimeTimestamp oFail.now },
         { entry := "glad", timestamp := strftimeTimestamp oW.now }]) :=
  mood_overwrite_journal_append oFail oW initState
    { chat_id := 5, text := "sad", cmd := none }
    { chat_id := 5, text := "glad", cmd := none } rfl

/-- C4: when the classifier call returns, classification yields exactly
one of the two labels, and the selected reply is a non-empty string drawn
from that label's pool; the two reference pools are disjoint with five
entries each. -/
theorem classify_label_and_reply_pools (o : Oracle) (text : String)
    (h : o.classifierFails text = false) :
    ∃ lbl r,
      classify_sentiment o text = Except.ok lbl ∧
      (lbl = "negative" ∨ lbl = "positive") ∧
      generate_response o text = Except.ok r ∧
      r ≠ "" ∧
      (if lbl = "positive" then r ∈ positive_responses else r ∈ negative_responses) ∧
      positive_responses.length = 5 ∧
      negative_responses.length = 5 ∧
      (∀ x ∈ positive_responses, x ∉ negative_responses) := by
  have hget := sentiment_labels_get (o.argmax text)
  have hclassify : classify_sentiment o text =
      Except.ok (if (o.argmax text).val = 0 then "negative" else "positive") := by
    simp only [classify_sentiment, h, Bool.false_eq_true, if_false]
    exact congrArg Except.ok hget
  by_cases hz : (o.argmax text).val = 0
  · refine ⟨"negative", negative_responses.get ⟨o.randNeg.val, o.randNeg.isLt⟩,
      ?_, Or.inl rfl, ?_, ?_, ?_, rfl, rfl, by decide⟩
    · simpa [hz] using hclassify
    · simp [generate_response, hclassify, hz]
    · exact pools_ne_empty.2 _ (List.get_mem _ _ _)
    · simp [List.get_mem]
  · refine ⟨"positive", positive_responses.get ⟨o.randPos.val, o.randPos.isLt⟩,
      ?_, Or.inr rfl, ?_, ?_, ?_, rfl, rfl, by decide⟩
    · simpa [hz] using hclassify
    · simp [generate_response, hclassify, hz]
    · exact pools_ne_empty.1 _ (List.get_mem _ _ _)
    · simp [List.get_mem]

/-- Witness for `classify_label_and_reply_pools` with a concrete
never-raising oracle. -/
theorem classify_label_and_reply_pools_witness :
    oW.classifierFails "I feel fine" = false ∧
    (∃ lbl r,
      classify_sentiment oW "I feel fine" = Except.ok lbl ∧
      (lbl = "negative" ∨ lbl = "positive") ∧
      generate_response oW "I feel fine" = Except.ok r ∧
      r ≠ "" ∧
      (if lbl = "positive" then r ∈ positive_responses else r ∈ negative_responses) ∧
      positive_responses.length = 5 ∧
      negative_responses.length = 5 ∧
      (∀ x ∈ positive_responses, x ∉ negative_responses)) :=
  ⟨rfl, classify_label_and_reply_pools oW "I feel fine" rfl⟩

/-- The original C1 statement fails on the code: with chat 7's mood
conversation awaiting input, an empty-text message matches neither the
flow's `filters.TEXT & ~filters.COMMAND` handler nor any other handler,
so nothing is stored, no reply is sent, and the conversation is still
awaiting — the message is dropped, not captured. -/
theorem empty_text_after_mood_start_not_captured :
    moodAwaitState.moodAwaiting 7 = true ∧
    (process_update oW moodAwaitState { chat_id := 7, text := "", cmd := none }).1.mood_log 7 = none ∧
    (process_update oW moodAwaitState { chat_id := 7, text := "", cmd := none }).2 = [] ∧
    (process_update oW moodAwaitState { chat_id := 7, text := "", cmd := none }).1.moodAwaiting 7 = true := by
  refine ⟨by decide, by decide, by decide, by decide⟩

/-- C1 (amended): while a flow is awaiting input, the immediate next
non-empty, non-command message is captured and stored by that flow (the
mood flow taking precedence when both are awaiting) and is handled by the
flow's capture handler, not by the chat dispatch handler. -/
theorem awaiting_capture (o : Oracle) (s : BotState) (m : Msg)
    (htext : m.text ≠ "") (hcmd : m.cmd = none) :
    (s.moodAwaiting m.chat_id = true →
      process_update o s m = log_mood o s m ∧
      (process_update o s m).1.mood_log m.chat_id =
        some { mood := m.text, timestamp := strftimeTimestamp o.now }) ∧
    (s.moodAwaiting m.chat_id = false → s.journalAwaiting m.chat_id = true →
      process_update o s m = save_journal o s m ∧
      (process_update o s m).1.journal_log m.chat_id =
        some ((s.journal_log m.chat_id).getD [] ++
          [{ entry := m.text, timestamp := strftimeTimestamp o.now }])) := by
  constructor
  · intro hm
    have hroute : process_update o s m = log_mood o s m := by
      simp [process_update, dispatch, handlers, textNoCommand, hcmd, hm, htext]
    refine ⟨hroute, ?_⟩
    rw [hroute]
    simp [log_mood]
  · intro hm hj
    have hroute : process_update o s m = save_journal o s m := by
      simp [process_update, dispatch, handlers, textNoCommand, hcmd, hm, hj, htext]
    refine ⟨hroute, ?_⟩
    rw [hroute]
    simp [save_journal]

/-- Witness for `awaiting_capture`: chat 7 is awaiting a mood and sends
`"Anxious"`. -/
theorem awaiting_capture_witness :
    ("Anxious" : String) ≠ "" ∧
    moodAwaitState.moodAwaiting 7 = true ∧
    (process_update oW moodAwaitState { chat_id := 7, text := "Anxious", cmd := none }).1.mood_log 7 =
      some { mood := "Anxious", timestamp := strftimeTimestamp oW.now } :=
  ⟨by decide, by decide,
   ((awaiting_capture oW moodAwaitState { chat_id := 7, text := "Anxious", cmd := none }
      (by decide) rfl).1 (by decide)).2⟩

/-- A `strftime`-formatted timestamp is never the empty string: the
format's literal separators alone give it positive length. -/
theorem strftimeTimestamp_ne_empty (t : DateTimeParts) : strftimeTimestamp t ≠ "" := by
  intro h
  have hl := congrArg String.length h
  have hdash : ("-" : String).length = 1 := rfl
  have hspace : (" " : String).length = 1 := rfl
  have hcolon : (":" : String).length = 1 := rfl
  have hempty : ("" : String).length = 0 := rfl
  simp only [strftimeTimestamp, String.length_append, hdash, hspace, hcolon, hempty] at hl
  omega

/-- C6 scenario, step by step from the import-time store for chat 7:
`/mood` answers the prompt containing "How are you feeling"; the reply
"Anxious" is stored verbatim with the populated capture-time timestamp
and acknowledged by a reply mentioning "Anxious"; the mood conversation
ends, so the next free-text message is handled by the chat handler. -/
theorem mood_concrete_scenario (o1 o2 o3 : Oracle) :
    (process_update o1 initState mMoodCmd).2 =
      ["How are you feeling today? (e.g., Happy, Sad, Anxious)"] ∧
    (∃ a b, "How are you feeling today? (e.g., Happy, Sad, Anxious)" =
      a ++ "How are you feeling" ++ b) ∧
    (process_update o2 (process_update o1 initState mMoodCmd).1 mAnxious).1.mood_log 7 =
      some { mood := "Anxious", timestamp := strftimeTimestamp o2.now } ∧
    strftimeTimestamp o2.now ≠ "" ∧
    (process_update o2 (process_update o1 initState mMoodCmd).1 mAnxious).2 =
      ["Thank you for sharing! I\x27ve logged your mood as \x27Anxious\x27."] ∧
    (∃ a b, "Thank you for sharing! I\x27ve logged your mood as \x27Anxious\x27." =
      a ++ "Anxious" ++ b) ∧
    (process_update o2 (process_update o1 initState mMoodCmd).1 mAnxious).1.moodAwaiting 7 = false ∧
    process_update o3 (process_update o2 (process_update o1 initState mMoodCmd).1 mAnxious).1 mHello =
      chat o3 (process_update o2 (process_update o1 initState mMoodCmd).1 mAnxious).1 mHello := by
  refine ⟨?_, ⟨"", " today? (e.g., Happy, Sad, Anxious)", by decide⟩, ?_,
    strftimeTimestamp_ne_empty o2.now, ?_,
    ⟨"Thank you for sharing! I\x27ve logged your mood as \x27", "\x27.", by decide⟩, ?_, ?_⟩ <;>
    simp [process_update, dispatch, handlers, textNoCommand, mMoodCmd, mAnxious, mHello,
      initState, mood, log_mood]

/-- Every registered handler can only shrink `response_history`: if a
chat id is flagged after the handler ran, it was flagged before. -/
theorem handlers_shrink_rh :
    ∀ hd ∈ handlers, ∀ (o : Oracle) (s : BotState) (m : Msg) (k : Nat),
      (hd.run o s m).1.response_history k = true → s.response_history k = true := by
  intro hd hmem o s m k h
  fin_cases hmem
  · simpa [start] using h
  · simpa [help_command] using h
  · simpa [affirmation] using h
  · by_cases hc : s.response_history m.chat_id = true
    · simp only [end_chat, hc, if_true] at h
      by_cases hk : k = m.chat_id
      · simp [hk] at h
      · simpa [hk] using h
    · simp only [end_chat, hc, if_false] at h
      exact h
  · by_cases hc : s.moodAwaiting m.chat_id = true
    · simpa [hc, log_mood] using h
    · simpa [hc, mood] using h
  · by_cases hc : s.journalAwaiting m.chat_id = true
    · simpa [hc, save_journal] using h
    · simpa [hc, journal] using h
  · simpa [chat] using h

/-- First-match dispatch over handlers that only shrink
`response_history` only shrinks it too. -/
theorem dispatch_shrinks_rh (hs : List Handler)
    (hp : ∀ hd ∈ hs, ∀ (o : Oracle) (s : BotState) (m : Msg) (k : Nat),
      (hd.run o s m).1.response_history k = true → s.response_history k = true) :
    ∀ (o : Oracle) (s : BotState) (m : Msg) (k : Nat),
      (dispatch hs o s m).1.response_history k = true → s.response_history k = true := by
  induction hs with
  | nil =>
    intro o s m k h
    simpa [dispatch] using h
  | cons hd tl ih =>
    intro o s m k h
    by_cases hc : hd.check s m = true
    · rw [dispatch, if_pos hc] at h
      exact hp hd (List.mem_cons_self _ _) o s m k h
    · rw [dispatch, if_neg hc] at h
      exact ih (fun x hx => hp x (List.mem_cons_of_mem _ hx)) o s m k h

/-- C8: in every reachable store, `response_history` is empty — no
handler ever inserts a chat id, so the end command's clearing branch is
dead and `/end` is observationally a pure acknowledgment. -/
theorem response_history_always_empty (s : BotState) (hr : Reachable s) :
    ∀ k, s.response_history k = false := by
  induction hr with
  | init => intro k; rfl
  | step o m hprev ih =>
    intro k
    cases hb : (process_update o _ m).1.response_history k with
    | false => rfl
    | true =>
      have := dispatch_shrinks_rh handlers handlers_shrink_rh o _ m k hb
      rw [ih k] at this
      exact absurd this (by decide)

/-- Witness for `response_history_always_empty` one step from the
import-time store. -/
theorem response_history_always_empty_witness :
    (process_update oW initState mMoodCmd).1.response_history 0 = false :=
  response_history_always_empty (process_update oW initState mMoodCmd).1
    (Reachable.step oW mMoodCmd Reachable.init) 0

end SageMind
